import Mathlib

/-!
# Verification of CareerHub client-side logic (src/script.js)

Shallow embedding of the DOM-manipulating routines of `script.js`:
the skill-tag input widget, the autocomplete suggestion filter, the CV
file validator, the form-submit guard and the page-setup guards.  DOM
state is modelled explicitly (lists of chip texts, booleans for
attribute presence, `Option` for nullable element lookups); JavaScript
string primitives (`trim`, `toLowerCase`, `split`, `includes`,
`endsWith`, first-occurrence `replace`) are reimplemented on `List Char`
with JS semantics (ASCII case mapping suffices for the fixed vocabulary).
-/

namespace CareerHub

/-- JS `String.prototype.toLowerCase` restricted to ASCII: characters
outside `A`-`Z` are unchanged (all strings handled here are ASCII). -/
def jsToLowerChar (c : Char) : Char :=
  if 'A' ≤ c ∧ c ≤ 'Z' then Char.ofNat (c.toNat + 32) else c

def jsToLower (s : String) : String :=
  ⟨s.data.map jsToLowerChar⟩

/-- Whitespace stripped by JS `String.prototype.trim` (ASCII fragment). -/
def isJsSpace (c : Char) : Bool :=
  c == ' ' || c == '\t' || c == '\n' || c == '\r' || c == '\x0b' || c == '\x0c'

/-- JS `String.prototype.trim`. -/
def jsTrim (s : String) : String :=
  ⟨((s.data.dropWhile isJsSpace).reverse.dropWhile isJsSpace).reverse⟩

/-- JS `String.prototype.split(',')` on character lists: every comma is a
separator and empty segments are kept (`"".split(',')` gives `[""]`). -/
def splitCommaList : List Char → List (List Char)
  | [] => [[]]
  | c :: t =>
    if c = ',' then [] :: splitCommaList t
    else
      match splitCommaList t with
      | h :: r => (c :: h) :: r
      | [] => [[c]]

def jsSplitComma (s : String) : List String :=
  (splitCommaList s.data).map fun l => ⟨l⟩

/-- Substring test on character lists (JS `String.prototype.includes`). -/
def containsSubList : List Char → List Char → Bool
  | hay, needle =>
    needle.isPrefixOf hay ||
      match hay with
      | [] => false
      | _ :: t => containsSubList t needle

def jsIncludes (hay needle : String) : Bool :=
  containsSubList hay.data needle.data

/-- JS `String.prototype.endsWith`. -/
def jsEndsWith (s suffix : String) : Bool :=
  suffix.data.reverse.isPrefixOf s.data.reverse

/-- JS `String.prototype.replace` with a string pattern: replaces only the
first occurrence of `pat` (an empty pattern matches at the start). -/
def replaceFirstList : List Char → List Char → List Char → List Char
  | [], pat, repl => if pat = [] then repl else []
  | c :: t, pat, repl =>
    if pat.isPrefixOf (c :: t) then repl ++ (c :: t).drop pat.length
    else c :: replaceFirstList t pat repl

def jsReplaceFirst (s pat repl : String) : String :=
  ⟨replaceFirstList s.data pat.data repl.data⟩

/-! ## Skill-tag widget (script.js lines 256-308)

A chip is a `<span class="skill-tag">` whose `textContent` is the
committed skill text followed by the remove-control glyph `" ×"` (the
skill text node plus the appended remove `<span>` whose text is `" ×"`).
The widget state is the list of chip text contents in DOM order together
with the value of the backing `input[name="user_skills"]`. -/

structure TagsState where
  /-- `textContent` of each `.skill-tag` element, in DOM order. -/
  chips : List String
  /-- Current value of the `user_skills` input. -/
  userSkillsValue : String
  deriving DecidableEq, Repr

def initTags : TagsState := ⟨[], ""⟩

/-- `updateSkillsInput` (lines 303-308): reads every chip's text, strips
the glyph with JS `replace(' ×', '')` — first occurrence — and joins
with `", "`. -/
def updateSkillsInput (chips : List String) : String :=
  String.intercalate ", " (chips.map fun t => jsReplaceFirst t " ×" "")

/-- `addSkillTag` (lines 256-284): a falsy (empty) argument returns at
once; otherwise a chip with text `skill ++ " ×"` is appended and the
backing input recomputed. -/
def addSkillTag (st : TagsState) (skill : String) : TagsState :=
  if skill = "" then st
  else
    let chips := st.chips ++ [skill ++ " ×"]
    ⟨chips, updateSkillsInput chips⟩

/-- Clicking a chip's remove control (lines 276-279): `tag.remove()` then
`updateSkillsInput()`. `i` is the chip's position in DOM order. -/
def removeSkillTag (st : TagsState) (i : Nat) : TagsState :=
  let chips := st.chips.eraseIdx i
  ⟨chips, updateSkillsInput chips⟩

/-- The Enter/comma keydown path (lines 173-179): the raw input text is
trimmed before `addSkillTag` is called. -/
def keyCommitTag (st : TagsState) (rawText : String) : TagsState :=
  addSkillTag st (jsTrim rawText)

inductive TagOp where
  | commit (skill : String)
  | remove (i : Nat)
  deriving DecidableEq, Repr

def applyTagOp (st : TagsState) : TagOp → TagsState
  | .commit s => addSkillTag st s
  | .remove i => removeSkillTag st i

def runTagOps (ops : List TagOp) : TagsState :=
  ops.foldl applyTagOp initTags

/-- Modelled from the spec's words for claim C1: strip the *trailing*
remove-control glyph `" ×"` from a chip's text (the spec's description
of `updateSkillsInput`, to be compared with the source's
first-occurrence `replace`). -/
def stripTrailingGlyph (t : String) : String :=
  if jsEndsWith t " ×" then ⟨t.data.dropLast.dropLast⟩ else t

/-! ## Autocomplete suggestions (script.js lines 183-254) -/

/-- The fixed `suggestions` vocabulary (lines 184-190), in source order. -/
def suggestionsVocab : List String :=
  ["Python", "JavaScript", "Java", "C++", "C#", "PHP", "Ruby", "Swift", "Kotlin",
   "HTML", "CSS", "React", "Angular", "Vue.js", "Node.js", "Django", "Flask",
   "MySQL", "PostgreSQL", "MongoDB", "SQLite", "Oracle",
   "Git", "Docker", "AWS", "Azure", "Linux", "Windows", "MacOS",
   "Communication", "Teamwork", "Problem Solving", "Leadership", "Time Management"]

/-- The `filtered` list of `showSkillSuggestions` (lines 192-195): keep a
vocabulary entry when its lowercase form contains the lowercased input
and no trimmed comma-segment of the input equals it case-insensitively. -/
def filteredSuggestions (input : String) : List String :=
  suggestionsVocab.filter fun skill =>
    jsIncludes (jsToLower skill) (jsToLower input) &&
      !((jsSplitComma input).any fun entered =>
          jsToLower (jsTrim entered) == jsToLower skill)

/-- The branch condition of lines 197-201: the dropdown is shown exactly
when the filtered list is non-empty and the input is longer than one
character; otherwise it is hidden. -/
def suggestionsShown (input : String) : Bool :=
  (filteredSuggestions input).length > 0 && input.length > 1

/-- The entries actually rendered: `filtered.slice(0, 5)` (line 223) when
the dropdown is shown, nothing when it is hidden. -/
def renderedSuggestions (input : String) : List String :=
  if suggestionsShown input then (filteredSuggestions input).take 5 else []

/-! ## Suggestions-dropdown element count (script.js lines 204-254)

`hideSuggestionsDropdown` removes the first `.suggestions-dropdown`
element if one exists; `showSuggestionsDropdown` first hides, then
appends exactly one new dropdown. The modelled state is the number of
dropdown elements in the document. -/

inductive DropdownOp where
  | show
  | hide
  deriving DecidableEq, Repr

def hideSuggestionsDropdown (n : Nat) : Nat := n - 1

def showSuggestionsDropdown (n : Nat) : Nat := hideSuggestionsDropdown n + 1

def applyDropdownOp (n : Nat) : DropdownOp → Nat
  | .show => showSuggestionsDropdown n
  | .hide => hideSuggestionsDropdown n

/-- Dropdown count after a sequence of show/hide operations, starting
from a page with no dropdown. -/
def runDropdownOps (ops : List DropdownOp) : Nat :=
  ops.foldl applyDropdownOp 0

/-! ## CV file validation (script.js lines 345-377) -/

structure CvFile where
  name : String
  size : Nat
  deriving DecidableEq, Repr

/-- Presence of the optional badge elements `#cv_file_badge` and
`#cv_file_name` (guarded at line 366). -/
structure BadgeEnv where
  badgePresent : Bool
  nameElPresent : Bool
  deriving DecidableEq, Repr

/-- Observable outcome of the `change` handler of
`initializeFileValidation`. -/
structure FileChangeEffect where
  /-- `this.value = ''` was executed (selection cleared). -/
  cleared : Bool
  /-- Notification shown, as (message, severity), if any. -/
  notification : Option (String × String)
  /-- New text of `#cv_file_name`, when the badge was updated. -/
  badgeText : Option String
  deriving DecidableEq, Repr

/-- The file-name check of line 352. -/
def fileNameAllowed (f : CvFile) : Bool :=
  jsEndsWith (jsToLower f.name) ".pdf" || jsEndsWith (jsToLower f.name) ".docx"

/-- The `change` handler (lines 349-376). `none` as input models an empty
selection (`this.files[0]` absent, line 351). -/
def handleFileChange (env : BadgeEnv) : Option CvFile → FileChangeEffect
  | none => ⟨false, none, none⟩
  | some f =>
    if !(fileNameAllowed f) then
      ⟨true, some ("Only PDF or DOCX files are accepted.", "error"), none⟩
    else if f.size > 8 * 1024 * 1024 then
      ⟨true, some ("File is too large (max 8MB).", "error"), none⟩
    else
      ⟨false, some ("File selected: " ++ f.name, "success"),
        if env.badgePresent && env.nameElPresent then some f.name else none⟩

/-- Modelled from the spec's words for claim C3: the validator accepts a
file iff its name ends in `.pdf` or `.docx` case-insensitively and its
size is at most 8 MiB. -/
def fileAcceptedSpec (f : CvFile) : Bool :=
  (jsEndsWith (jsToLower f.name) ".pdf" || jsEndsWith (jsToLower f.name) ".docx") &&
    f.size ≤ 8 * 1024 * 1024

/-! ## CV required-marker sync (script.js lines 27-35)

The DOM state is the presence of the `required` attribute on the
`cv_text` textarea; `syncRequired` rewrites it unconditionally from the
textarea value and the file-list length, ignoring the previous state. -/

def syncRequired (cvTextValue : String) (filesLength : Nat) (_required : Bool) : Bool :=
  let hasText := (jsTrim cvTextValue).length > 0
  let hasFile := filesLength > 0
  if hasText || hasFile then false else true

/-! ## Form submit guard (script.js lines 43-101)

A required form field is modelled by its value, whether it carries the
`required` attribute, and whether a `.field-error` element is currently
attached to its parent. -/

structure GField where
  value : String
  required : Bool
  inlineError : Bool
  deriving DecidableEq, Repr

/-- The required-field loop of `validateForm` (lines 59-68): each field
carrying `required` gets an inline error iff its trimmed value is empty
(`showFieldError` / `clearFieldError`); other fields are untouched. -/
def validateFieldsStep (fields : List GField) : List GField :=
  fields.map fun f =>
    if f.required then
      if jsTrim f.value = "" then { f with inlineError := true }
      else { f with inlineError := false }
    else f

/-- `isValid` as computed by the loop of lines 59-68. -/
def fieldsValid (fields : List GField) : Bool :=
  fields.all fun f => !(f.required && (jsTrim f.value == ""))

/-- Submit handling for a form whose `action` is not `/analyze`
(lines 43-53): run `validateForm` (which, for such a form, is only the
required-field loop) and call `preventDefault` iff it failed. Returns
the updated fields and whether the default was prevented. -/
def genericSubmit (fields : List GField) : List GField × Bool :=
  (validateFieldsStep fields, !(fieldsValid fields))

/-- State of the `/analyze` form: its other fields, the `cv_text`
textarea (value, `required` attribute, attached inline error) and the
`#cv_file` file-list length. -/
structure AnalyzeState where
  fields : List GField
  cvText : String
  cvFiles : Nat
  cvRequired : Bool
  cvInlineError : Bool
  deriving DecidableEq, Repr

/-- `validateForm` on the `/analyze` form (lines 57-87). The textarea
takes part in the required-field loop when it carries `required`; the
text-or-file rule (lines 71-84) then re-asserts or removes `required`
and, on failure, sets `isValid = false` without attaching any inline
error. -/
def validateFormAnalyze (st : AnalyzeState) : AnalyzeState × Bool :=
  let fields := validateFieldsStep st.fields
  let cvBlank := jsTrim st.cvText == ""
  let cvErr := if st.cvRequired then cvBlank else st.cvInlineError
  let valid1 := fieldsValid st.fields && !(st.cvRequired && cvBlank)
  let hasFile := st.cvFiles > 0
  let hasText := !cvBlank
  if !hasFile && !hasText then
    ({ st with fields := fields, cvInlineError := cvErr, cvRequired := true }, false)
  else
    ({ st with fields := fields, cvInlineError := cvErr, cvRequired := false }, valid1)

/-- Submit on the `/analyze` form: the listener of line 40 runs
`syncRequired` first, then the generic listener (lines 43-53) runs
`validateForm`; `preventDefault` is never called because the guard of
line 47 excludes the `/analyze` action. Returns the updated state and
whether the default was prevented. -/
def analyzeSubmit (st : AnalyzeState) : AnalyzeState × Bool :=
  let st1 := { st with cvRequired := syncRequired st.cvText st.cvFiles st.cvRequired }
  let r := validateFormAnalyze st1
  (r.1, false)

/-! ## Page-setup guards (script.js lines 19-55, 162-181, 256-308,
311-342, 345-348, 421-449)

A page configuration records which of the expected elements exist. A
setup routine returns `none` when it dereferences a `null` DOM lookup
(a `TypeError` in the browser), `some ()` when it completes. -/

structure Page where
  hasAnalyzeForm : Bool
  hasCvTextarea : Bool
  hasCvFileInput : Bool
  hasUserSkillsInput : Bool
  deriving DecidableEq, Repr

/-- `initializeFormValidation` (lines 19-55): inside the `/analyze`
branch, `cvTextarea.addEventListener` (line 37) and
`cvFile.addEventListener` (line 38) are called without null guards. -/
def formValidationSetup (p : Page) : Option Unit :=
  if p.hasAnalyzeForm then
    if p.hasCvTextarea = false then none
    else if p.hasCvFileInput = false then none
    else some ()
  else some ()

/-- `initializeCVAnalysis` (lines 311-342) plus `showCVTips`
(lines 421-449): when a `cv_text` textarea exists, `showCVTips` runs and
calls `cvForm.appendChild` (line 448) without a null guard on the
`/analyze` form lookup. -/
def cvAnalysisSetup (p : Page) : Option Unit :=
  if p.hasCvTextarea then
    if p.hasAnalyzeForm then some () else none
  else some ()

/-- `initializeJobMatching` (lines 162-181): the `user_skills` lookup is
guarded by `if (skillsInput)` (line 166), so setup never crashes. -/
def jobMatchingSetup (p : Page) : Option Unit :=
  if p.hasUserSkillsInput then some () else some ()

/-- `initializeFileValidation` (lines 345-348): guarded by
`if (!fileInput) return`, so setup never crashes. -/
def fileValidationSetup (p : Page) : Option Unit :=
  if p.hasCvFileInput then some () else some ()

/-- Running the exposed `addSkillTag` operation on a given page: after
the falsy-argument guard (line 257), `createSkillTagsContainer`
(line 298) and `updateSkillsInput` (lines 306-307) dereference the
`user_skills` lookup without a null guard. -/
def addSkillTagRun (p : Page) (skill : String) : Option Unit :=
  if skill = "" then some ()
  else if p.hasUserSkillsInput then some () else none

/-! ## Helper lemmas -/

/-- The no-drift invariant of the tag widget: the backing input always
holds the `", "`-join of the chip texts with the first occurrence of the
glyph removed. -/
def TagsInv (st : TagsState) : Prop :=
  st.userSkillsValue =
    String.intercalate ", " (st.chips.map fun t => jsReplaceFirst t " ×" "")

theorem tagsInv_init : TagsInv initTags := rfl

theorem tagsInv_apply {st : TagsState} (_h : TagsInv st) (op : TagOp) :
    TagsInv (applyTagOp st op) := by
  cases op with
  | commit s =>
    show TagsInv (addSkillTag st s)
    unfold addSkillTag
    split
    · exact _h
    · rfl
  | remove i => rfl

theorem tagsInv_run (ops : List TagOp) : TagsInv (runTagOps ops) := by
  have h : ∀ st : TagsState, TagsInv st → TagsInv (ops.foldl applyTagOp st) := by
    induction ops with
    | nil => exact fun st h => h
    | cons op t ih => exact fun st h => ih _ (tagsInv_apply h op)
  exact h initTags tagsInv_init

theorem string_length_eq_zero {s : String} : s.length = 0 ↔ s = "" := by
  constructor
  · intro h
    cases s with
    | mk data =>
      rw [show data = [] from List.length_eq_zero.mp h]
  · intro h
    rw [h]
    rfl

theorem applyDropdownOp_le_one {n : Nat} (h : n ≤ 1) (op : DropdownOp) :
    applyDropdownOp n op ≤ 1 := by
  cases op <;>
    simp only [applyDropdownOp, showSuggestionsDropdown, hideSuggestionsDropdown] <;>
    omega

theorem runDropdownOps_le_one (ops : List DropdownOp) : runDropdownOps ops ≤ 1 := by
  have h : ∀ n : Nat, n ≤ 1 → ops.foldl applyDropdownOp n ≤ 1 := by
    induction ops with
    | nil => exact fun n h => h
    | cons op t ih => exact fun n h => ih _ (applyDropdownOp_le_one h op)
  exact h 0 (by omega)

/-! ## Claims -/

/-- C1: the claim as stated fails on the code. After committing the tag
`"a ×b"` the chip text is `"a ×b ×"`; `updateSkillsInput` removes the
*first* occurrence of `" ×"` (JS `replace`), yielding backing value
`"ab ×"`, while the claimed join with the *trailing* glyph stripped
yields `"a ×b"`. -/
theorem c1_counterexample :
    ¬ ((runTagOps [TagOp.commit "a ×b"]).userSkillsValue =
        String.intercalate ", "
          ((runTagOps [TagOp.commit "a ×b"]).chips.map stripTrailingGlyph)) := by
  decide

/-- C1 (amended): after every sequence of commitTag and removeTag
operations, the backing `user_skills` value equals the join with `", "`
of the chip texts with the *first* occurrence of `" ×"` removed (JS
`replace(' ×', '')`), in DOM order, with no incremental drift at any
observation point. (This coincides with stripping the trailing glyph
whenever no chip text contains `" ×"` before its end.) -/
theorem c1_backing_invariant (ops : List TagOp) :
    (runTagOps ops).userSkillsValue =
      String.intercalate ", "
        ((runTagOps ops).chips.map fun t => jsReplaceFirst t " ×" "") :=
  tagsInv_run ops

/-- C2: for every input text `t`, every rendered suggestion belongs to the
fixed vocabulary, its lowercase form contains the lowercased `t` as a
substring, and it does not case-insensitively equal the trim of any
comma-separated segment of `t`; at most 5 entries are rendered; and the
dropdown is hidden whenever `t` has length at most 1 or the filtered
list is empty. -/
theorem c2_suggestions_sound (t : String) :
    (∀ s ∈ renderedSuggestions t, s ∈ suggestionsVocab ∧
        jsIncludes (jsToLower s) (jsToLower t) = true ∧
        ∀ seg ∈ jsSplitComma t, jsToLower (jsTrim seg) ≠ jsToLower s) ∧
      (renderedSuggestions t).length ≤ 5 ∧
      (t.length ≤ 1 ∨ filteredSuggestions t = [] → suggestionsShown t = false) := by
  refine ⟨?_, ?_, ?_⟩
  · intro s hs
    unfold renderedSuggestions at hs
    split at hs
    · have hmemf : s ∈ filteredSuggestions t := List.mem_of_mem_take hs
      unfold filteredSuggestions at hmemf
      have h2 := List.mem_filter.mp hmemf
      have hand := h2.2
      simp only [Bool.and_eq_true, Bool.not_eq_true'] at hand
      refine ⟨h2.1, hand.1, ?_⟩
      intro seg hseg heq
      have hany := hand.2
      rw [List.any_eq_false] at hany
      exact hany seg hseg (by rw [heq]; exact beq_self_eq_true _)
    · simp at hs
  · unfold renderedSuggestions
    split
    · have h5 := List.length_take 5 (filteredSuggestions t)
      omega
    · simp
  · intro h
    rcases h with h | h
    · have h1 : ¬ (1 < t.length) := by omega
      simp [suggestionsShown, h1]
    · simp [suggestionsShown, h]

/-- Witness for C2: on input `"tho"`, the rendered entry `"Python"` is
in the vocabulary, matches by substring, and equals no comma-segment;
on the one-character input `"a"` the dropdown is hidden. -/
theorem c2_suggestions_sound_witness :
    ("Python" ∈ suggestionsVocab ∧
        jsIncludes (jsToLower "Python") (jsToLower "tho") = true ∧
        ∀ seg ∈ jsSplitComma "tho", jsToLower (jsTrim seg) ≠ jsToLower "Python") ∧
      suggestionsShown "a" = false :=
  ⟨(c2_suggestions_sound "tho").1 "Python" (by decide),
   (c2_suggestions_sound "a").2.2 (Or.inl (by decide))⟩

/-- C3: the file validator accepts (does not clear) a selected file iff
its lowercased name ends in `.pdf` or `.docx` and its size is at most
8 MiB; on any violation the selection is cleared and an error
notification shown (and no badge update happens); on success a success
notification is shown and, when the badge elements exist, the filename
badge is updated. -/
theorem c3_file_validation (env : BadgeEnv) (f : CvFile) :
    ((handleFileChange env (some f)).cleared = false ↔ fileAcceptedSpec f = true) ∧
      ((handleFileChange env (some f)).cleared = true →
        ∃ m, (handleFileChange env (some f)).notification = some (m, "error") ∧
          (handleFileChange env (some f)).badgeText = none) ∧
      (fileAcceptedSpec f = true →
        (handleFileChange env (some f)).notification =
            some ("File selected: " ++ f.name, "success") ∧
          (env.badgePresent = true → env.nameElPresent = true →
            (handleFileChange env (some f)).badgeText = some f.name)) := by
  have hsplit : fileNameAllowed f = false ∨
      (fileNameAllowed f = true ∧ f.size > 8 * 1024 * 1024) ∨
      (fileNameAllowed f = true ∧ f.size ≤ 8 * 1024 * 1024) := by
    cases h : fileNameAllowed f
    · exact Or.inl rfl
    · by_cases hs : f.size ≤ 8 * 1024 * 1024
      · exact Or.inr (Or.inr ⟨rfl, hs⟩)
      · exact Or.inr (Or.inl ⟨rfl, by omega⟩)
  rcases hsplit with h | ⟨h, hs⟩ | ⟨h, hs⟩
  · have hacc : fileAcceptedSpec f = false := by
      unfold fileAcceptedSpec
      unfold fileNameAllowed at h
      simp [h]
    refine ⟨by simp [handleFileChange, h, hacc],
      fun _ => ⟨"Only PDF or DOCX files are accepted.",
        by simp [handleFileChange, h], by simp [handleFileChange, h]⟩,
      fun hc => by rw [hacc] at hc; exact absurd hc (by decide)⟩
  · have hacc : fileAcceptedSpec f = false := by
      unfold fileAcceptedSpec
      unfold fileNameAllowed at h
      rw [h]
      simp
      omega
    refine ⟨by simp [handleFileChange, h, hacc, hs],
      fun _ => ⟨"File is too large (max 8MB).",
        by simp [handleFileChange, h, hs], by simp [handleFileChange, h, hs]⟩,
      fun hc => by rw [hacc] at hc; exact absurd hc (by decide)⟩
  · have hacc : fileAcceptedSpec f = true := by
      unfold fileAcceptedSpec
      unfold fileNameAllowed at h
      rw [h]
      simp
      omega
    have hns : ¬ (f.size > 8 * 1024 * 1024) := by omega
    refine ⟨by simp [handleFileChange, h, hacc, hns], fun hc => ?_, fun _ => ?_⟩
    · exfalso
      revert hc
      simp [handleFileChange, h, hns]
    · refine ⟨by simp [handleFileChange, h, hns], fun hb hn => ?_⟩
      simp [handleFileChange, h, hns, hb, hn]

/-- Witness for C3: the 4 KiB file `resume.pdf` is accepted, a success
notification is shown and the badge is updated with its name. -/
theorem c3_file_validation_witness :
    ((handleFileChange ⟨true, true⟩ (some ⟨"resume.pdf", 4096⟩)).cleared = false) ∧
      (handleFileChange ⟨true, true⟩ (some ⟨"resume.pdf", 4096⟩)).notification =
          some ("File selected: " ++ "resume.pdf", "success") ∧
      (handleFileChange ⟨true, true⟩ (some ⟨"resume.pdf", 4096⟩)).badgeText =
        some "resume.pdf" :=
  ⟨(c3_file_validation ⟨true, true⟩ ⟨"resume.pdf", 4096⟩).1.mpr (by decide),
   ((c3_file_validation ⟨true, true⟩ ⟨"resume.pdf", 4096⟩).2.2 (by decide)).1,
   ((c3_file_validation ⟨true, true⟩ ⟨"resume.pdf", 4096⟩).2.2 (by decide)).2 rfl rfl⟩

/-- C4: on submit of a form whose action is not `/analyze`, any blank
required field makes the handler prevent the default and attach an
inline error to that field; on submit of the `/analyze` form the handler
never prevents submission, the field inline errors come only from the
generic required loop (the text-or-file rule attaches none), and the
`required` attribute on the `cv_text` textarea is re-asserted exactly
when the trimmed text is empty and no file is selected. -/
theorem c4_submit_gating :
    (∀ (fields : List GField) (f : GField), f ∈ fields → f.required = true →
        jsTrim f.value = "" →
        (genericSubmit fields).2 = true ∧
          { f with inlineError := true } ∈ (genericSubmit fields).1) ∧
      (∀ st : AnalyzeState,
        (analyzeSubmit st).2 = false ∧
          (analyzeSubmit st).1.fields = validateFieldsStep st.fields ∧
          (analyzeSubmit st).1.cvRequired =
            (jsTrim st.cvText == "" && st.cvFiles == 0)) := by
  constructor
  · intro fields f hf hreq hblank
    have hv : fieldsValid fields = false := by
      rw [← Bool.not_eq_true]
      intro hall
      have hone := List.all_eq_true.mp hall f hf
      rw [hreq, hblank] at hone
      simp at hone
    constructor
    · simp [genericSubmit, hv]
    · have hmem := List.mem_map_of_mem
        (fun g : GField =>
          if g.required then
            if jsTrim g.value = "" then { g with inlineError := true }
            else { g with inlineError := false }
          else g) hf
      simp only [hreq, hblank, if_true, if_pos] at hmem
      simpa [genericSubmit, validateFieldsStep, hreq] using hmem
  · intro st
    refine ⟨rfl, ?_, ?_⟩
    · simp only [analyzeSubmit, validateFormAnalyze]
      split
      · split <;> rfl
      · split <;> rfl
    · simp only [analyzeSubmit, validateFormAnalyze]
      by_cases hb : (jsTrim st.cvText == "") = true <;>
        by_cases hn : st.cvFiles = 0
      · simp [hb, hn]
      · simp [hb, hn, Nat.pos_of_ne_zero hn]
      · simp only [Bool.not_eq_true] at hb
        simp [hb, hn]
      · simp only [Bool.not_eq_true] at hb
        simp [hb, hn, Nat.pos_of_ne_zero hn]

/-- Witness for C4: a one-field non-analyze form with a blank required
field is prevented and the field gets an inline error. -/
theorem c4_submit_gating_witness :
    (genericSubmit [⟨"", true, false⟩]).2 = true ∧
      (⟨"", true, true⟩ : GField) ∈ (genericSubmit [⟨"", true, false⟩]).1 :=
  c4_submit_gating.1 [⟨"", true, false⟩] ⟨"", true, false⟩ (by decide) rfl (by decide)

/-- C5: after every evaluation of `syncRequired` the `cv_text` textarea
carries `required` iff the trimmed text is empty and no file is
selected, and re-evaluating with unchanged inputs yields the same state
(idempotence). -/
theorem c5_syncRequired (v : String) (n : Nat) (r : Bool) :
    (syncRequired v n r = true ↔ (jsTrim v = "" ∧ n = 0)) ∧
      syncRequired v n (syncRequired v n r) = syncRequired v n r := by
  constructor
  · unfold syncRequired
    by_cases ht : (jsTrim v).length > 0 <;> by_cases hf : n > 0
    · simp [ht, hf]
      intro _
      omega
    · simp [ht, hf]
      intro h
      rw [h] at ht
      exact absurd ht (by decide)
    · simp [ht, hf]
      intro _
      omega
    · simp [ht, hf]
      exact ⟨string_length_eq_zero.mp (by omega), by omega⟩
  · rfl

/-- Witness for C5: with empty text and no file the marker is required;
with the text `" x"` it is not. -/
theorem c5_syncRequired_witness :
    syncRequired "" 0 true = true ∧ syncRequired " x" 0 true = false :=
  ⟨(c5_syncRequired "" 0 true).1.mpr ⟨by decide, rfl⟩,
   by
    have h := (c5_syncRequired " x" 0 true).1
    revert h
    decide⟩

/-- C6: the claim as stated fails on the code: not every DOM reference
is guarded. On a page with an `/analyze` form but no `cv_text` textarea
(or no `#cv_file` input) `initializeFormValidation` dereferences null;
on a page with a `cv_text` textarea but no `/analyze` form `showCVTips`
dereferences null; the exposed add-skill-tag operation dereferences null
when the `user_skills` input is absent. -/
theorem c6_counterexample :
    formValidationSetup ⟨true, false, true, true⟩ = none ∧
      formValidationSetup ⟨true, true, false, true⟩ = none ∧
      cvAnalysisSetup ⟨false, true, true, true⟩ = none ∧
      addSkillTagRun ⟨true, true, true, false⟩ "Python" = none := by
  decide

/-- C6 (amended): the job-matching and file-validation setups are total
(their lookups are guarded and absence silently skips setup), but
`initializeFormValidation` crashes exactly when an `/analyze` form
exists without its `cv_text` textarea or without the `#cv_file` input,
the CV-analysis setup crashes exactly when a `cv_text` textarea exists
without an `/analyze` form, and the exposed add-skill-tag operation
crashes exactly when its argument is non-empty and the `user_skills`
input is absent. -/
theorem c6_guard_characterization (p : Page) :
    (formValidationSetup p = none ↔
        p.hasAnalyzeForm = true ∧
          (p.hasCvTextarea = false ∨ p.hasCvFileInput = false)) ∧
      (cvAnalysisSetup p = none ↔
        p.hasCvTextarea = true ∧ p.hasAnalyzeForm = false) ∧
      jobMatchingSetup p = some () ∧
      fileValidationSetup p = some () ∧
      ∀ s : String,
        (addSkillTagRun p s = none ↔ s ≠ "" ∧ p.hasUserSkillsInput = false) := by
  obtain ⟨a, b, c, d⟩ := p
  refine ⟨?_, ?_, ?_, ?_, ?_⟩
  · cases a <;> cases b <;> cases c <;> cases d <;> decide
  · cases a <;> cases b <;> cases c <;> cases d <;> decide
  · cases a <;> cases b <;> cases c <;> cases d <;> decide
  · cases a <;> cases b <;> cases c <;> cases d <;> decide
  · intro s
    by_cases hs : s = ""
    · simp [addSkillTagRun, hs]
    · cases d <;> simp [addSkillTagRun, hs]

/-- C7: the claim as stated fails on the code. For input `"java"` the
rendered suggestion list is not `["Java", "JavaScript"]`: the vocabulary
lists `"JavaScript"` before `"Java"`, and `"Java"` is excluded because
the comma-segment `"java"` of the input equals it case-insensitively. -/
theorem c7_counterexample :
    ¬ (renderedSuggestions "java" = ["Java", "JavaScript"]) := by
  decide

/-- C7 (amended): for input `"java"` the computed suggestion list equals
`["JavaScript"]` — `"JavaScript"` matches case-insensitively; `"Java"`
is excluded by the already-entered filter because it case-insensitively
equals the input's single comma-segment — and the dropdown is shown. -/
theorem c7_java_suggestions :
    filteredSuggestions "java" = ["JavaScript"] ∧
      renderedSuggestions "java" = ["JavaScript"] ∧
      suggestionsShown "java" = true := by
  decide

/-- C8: the claim as stated fails on the code. The exposed
`addSkillTag` operation does not trim its argument, and a whitespace-only
string is truthy in JS, so `addSkillTag(" ")` creates a chip (text
`"  ×"`) and changes the backing field. -/
theorem c8_counterexample :
    (addSkillTag initTags " ").chips = ["  ×"] ∧
      ¬ (addSkillTag initTags " " = initTags) := by
  decide

/-- C8 (amended): an empty-string commit is silently ignored on every
path, and the Enter/comma key path trims its raw text first, so any
whitespace-only raw text is ignored there (no chip, no state change);
the exposed add-skill-tag operation, however, only ignores the exact
empty string. -/
theorem c8_empty_commit_ignored (st : TagsState) (s : String) :
    (jsTrim s = "" → keyCommitTag st s = st) ∧ addSkillTag st "" = st := by
  refine ⟨fun h => ?_, rfl⟩
  show addSkillTag st (jsTrim s) = st
  rw [h]
  rfl

/-- Witness for C8: the key path ignores the whitespace-only raw text
`" "`, and the direct path ignores `""`, on the initial state. -/
theorem c8_empty_commit_ignored_witness :
    keyCommitTag initTags " " = initTags ∧ addSkillTag initTags "" = initTags :=
  ⟨(c8_empty_commit_ignored initTags " ").1 (by decide),
   (c8_empty_commit_ignored initTags "").2⟩

/-- C9: committing `"Python"` twice produces two chips whose skill texts
are `["Python", "Python"]` (duplicates are not prevented) and the
backing field value `"Python, Python"`. -/
theorem c9_duplicate_python :
    ((addSkillTag (addSkillTag initTags "Python") "Python").chips.map
        fun t => jsReplaceFirst t " ×" "") = ["Python", "Python"] ∧
      (addSkillTag (addSkillTag initTags "Python") "Python").chips =
        ["Python ×", "Python ×"] ∧
      (addSkillTag (addSkillTag initTags "Python") "Python").userSkillsValue =
        "Python, Python" := by
  decide

/-- C10: starting from a page with no dropdown, after every sequence of
show/hide operations at most one `.suggestions-dropdown` element exists:
showing removes any existing dropdown before appending the new one, and
hiding removes one if present. -/
theorem c10_dropdown_unique (ops : List DropdownOp) : runDropdownOps ops ≤ 1 :=
  runDropdownOps_le_one ops

end CareerHub
